import Mathlib

/-!
Verification of the zvm Z-Machine interpreter (Python) against its
natural-language specification.  Each Python function that a claim
depends on is translated into an executable Lean definition; machine
integers are modelled as `Nat` (with explicit masks/mods where the
Python code masks), fallible code returns `Except`.

Conventions used throughout:
  * Python lists indexed from the end (`xs[-1]`, `append`/`pop`) model
    the top of a stack; in Lean the top of such a stack is the HEAD of
    the list (push = cons, pop = head/tail).
  * Calls to the debug logger `zlogging.log` are omitted: they only
    write to a log file.  The exception is an eagerly evaluated log
    ARGUMENT that can itself raise: `int(chunk_serial)` at quetzal.py
    line 92 raises ValueError for a non-decimal serial, and is
    modelled inside `parse_ifhd`.
  * `ord c` of a one-character Python string is the byte value of that
    character; chunk payload strings are therefore `List Nat` here.
-/

deriving instance DecidableEq for Except

namespace Zvm

/-- Errors raised by the Python code (each constructor corresponds to an
exception class, or to a built-in Python exception such as `IndexError`
or `TypeError` escaping from the code). -/
inductive ZErr where
  | zMemoryIllegalWrite
  | zMemoryOutOfBounds
  | zMemoryBadMemoryLayout
  | zMemoryBadStoryfileSize
  | zMemoryUnsupportedVersion
  | zMemoryBadInitialization
  | zStackError
  | zStackUnsupportedVersion
  | zStackNoRoutine
  | zStackNoSuchVariable
  | zStackPopError
  | zObjectIllegalObjectNumber
  | zObjectIllegalVersion
  | zObjectMalformedTree
  | quetzalMalformedChunk
  | quetzalIllegalChunkOrder
  | quetzalMismatchedFile
  | quetzalMemoryOutOfBounds
  | pyIndexError
  | pyTypeError
  | pyAttributeError
  | pyValueError
  deriving Repr, DecidableEq

/-- `BitField.__getslice__(start, end)` (bitfield.py lines 70-73):
`mask = 2**(end - start) - 1; return (self._d >> start) & mask`.
The slice is end-EXCLUSIVE: bits `start .. end-1`. -/
def bf_getslice (d start stop : Nat) : Nat :=
  (d >>> start) % 2 ^ (stop - start)

/-- `BitField.__getitem__(index)` (bitfield.py lines 60-62):
`(self._d >> index) & 1`. -/
def bf_getitem (d index : Nat) : Nat :=
  (d >>> index) % 2

/-- The state of `ZMemory` (zmemory.py).  `memory` is the raw byte list
`self._memory`; the remaining fields are computed by `__init__`.
`self._total_size` always equals `memory.length`. -/
structure ZMemory where
  memory : List Nat
  static_start : Nat
  static_end : Nat
  dynamic_start : Nat
  dynamic_end : Int      -- `self._static_start - 1`, Python int (may be -1)
  high_start : Nat
  high_end : Nat
  global_variable_start : Nat
  version : Nat
  deriving Repr, DecidableEq

/-- `len(initial_string)` alias: `self._total_size`. -/
def ZMemory.total_size (m : ZMemory) : Nat := m.memory.length

/-- Raw big-endian word read used during `ZMemory.__init__` (before the
bounds-checking `read_word` is usable): `(mem[a] << 8) + mem[a+1]`.
Python would raise IndexError past the end; `__init__` only calls it on
header addresses, which the size checks below keep in range. -/
def raw_word (mem : List Nat) (a : Nat) : Nat :=
  (mem.getD a 0) <<< 8 + mem.getD (a + 1) 0

/-- `ZMemory.__init__(initial_string)` (zmemory.py lines 79-121).
Computes the section boundaries from the header and validates the
layout and story size. -/
def ZMemory.init (initial_string : List Nat) : Except ZErr ZMemory :=
  let total_size := initial_string.length
  let memory := initial_string
  let static_start := raw_word memory 0x0e
  let static_end := min 0x0ffff total_size
  let dynamic_start : Nat := 0
  let dynamic_end : Int := (static_start : Int) - 1
  let high_start := raw_word memory 0x04
  let high_end := total_size
  let global_variable_start := raw_word memory 0x0c
  let dynamic_plus_static : Int :=
    (dynamic_end - (dynamic_start : Int)) + ((static_end : Int) - static_start)
  if dynamic_plus_static > 65534 then .error .zMemoryBadMemoryLayout
  else
    let version := memory.getD 0 0
    if 1 ≤ version ∧ version ≤ 3 then
      if total_size > 131072 then .error .zMemoryBadStoryfileSize
      else .ok ⟨memory, static_start, static_end, dynamic_start, dynamic_end,
                high_start, high_end, global_variable_start, version⟩
    else if 4 ≤ version ∧ version ≤ 5 then
      if total_size > 262144 then .error .zMemoryBadStoryfileSize
      else .ok ⟨memory, static_start, static_end, dynamic_start, dynamic_end,
                high_start, high_end, global_variable_start, version⟩
    else .error .zMemoryUnsupportedVersion

/-- `ZMemory._check_bounds(index)` (zmemory.py lines 123-125). -/
def ZMemory.check_bounds (m : ZMemory) (index : Nat) : Except ZErr Unit :=
  if ¬ (index < m.total_size) then .error .zMemoryOutOfBounds else .ok ()

/-- `ZMemory._check_static(index)` (zmemory.py lines 127-130). -/
def ZMemory.check_static (m : ZMemory) (index : Nat) : Except ZErr Unit :=
  if m.static_start ≤ index ∧ index ≤ m.static_end
  then .error .zMemoryIllegalWrite else .ok ()

/-- `ZMemory.__getitem__(index)` (zmemory.py lines 138-141). -/
def ZMemory.getitem (m : ZMemory) (index : Nat) : Except ZErr Nat := do
  m.check_bounds index
  .ok (m.memory.getD index 0)

/-- `ZMemory.__setitem__(index, value)` (zmemory.py lines 143-147).
Checks bounds and the static region, then writes; note that it does
NOT special-case the 64-byte header. -/
def ZMemory.setitem (m : ZMemory) (index value : Nat) : Except ZErr ZMemory := do
  m.check_bounds index
  m.check_static index
  .ok { m with memory := m.memory.set index value }

/-- `ZMemory.__getslice__(start, end)` (zmemory.py lines 149-153). -/
def ZMemory.getslice (m : ZMemory) (start stop : Nat) : Except ZErr (List Nat) := do
  m.check_bounds start
  m.check_bounds stop
  .ok ((m.memory.drop start).take (stop - start))

/-- `ZMemory.read_word(address)` (zmemory.py lines 182-186). -/
def ZMemory.read_word (m : ZMemory) (address : Nat) : Except ZErr Nat :=
  if address + 1 ≥ m.total_size then .error .zMemoryOutOfBounds
  else .ok ((m.memory.getD address 0) <<< 8 + m.memory.getD (address + 1) 0)

/-- The `HEADER_PERMS` table (zmemory.py lines 62-77): for each header
byte, `none` or `some (minimum_z_version, game_allowed,
interpreter_allowed)`. -/
def HEADER_PERMS : List (Option (Nat × Nat × Nat)) :=
  [some (1,0,0), some (3,0,1), none, none,
   some (1,0,0), none, some (1,0,0), none,
   some (1,0,0), none, some (1,0,0), none,
   some (1,0,0), none, some (1,0,0), none,
   some (1,1,1), some (1,1,1), none, none,
   none, none, none, none,
   some (2,0,0), none, some (3,0,0), none,
   some (3,0,0), none, some (4,1,1), some (4,1,1),
   some (4,0,1), some (4,0,1), some (5,0,1), none,
   some (5,0,1), none, some (5,0,1), some (5,0,1),
   some (6,0,0), none, some (6,0,0), none,
   some (5,0,1), some (5,0,1), some (5,0,0), none,
   some (6,0,1), none, some (1,0,1), none,
   some (5,0,0), none, some (5,0,0), none,
   none, none, none, none,
   none, none, none, none]

/-- `ZMemory.game_set_header(address, value)` (zmemory.py lines 220-230). -/
def ZMemory.game_set_header (m : ZMemory) (address value : Nat) :
    Except ZErr ZMemory :=
  if address > 63 then .error .zMemoryOutOfBounds
  else
    match HEADER_PERMS.getD address none with
    | none => .error .zMemoryIllegalWrite
    | some (min_version, game_allowed, _) =>
      if m.version ≥ min_version ∧ game_allowed ≠ 0 then
        .ok { m with memory := m.memory.set address value }
      else .error .zMemoryIllegalWrite

/-- `ZMemory.write_word(address, value)` (zmemory.py lines 188-202).
A write whose address lies in `[0, 64)` is decomposed into two
`game_set_header` byte writes; otherwise both bytes are written to the
raw memory list directly. -/
def ZMemory.write_word (m : ZMemory) (address value : Nat) :
    Except ZErr ZMemory :=
  if address + 1 ≥ m.total_size then .error .zMemoryOutOfBounds
  else
    let value_msb := (value >>> 8) % 256
    let value_lsb := value % 256
    if address < 64 then do
      let m ← m.game_set_header address value_msb
      m.game_set_header (address + 1) value_lsb
    else
      let memory := (m.memory.set address value_msb).set (address + 1) value_lsb
      .ok { m with memory := memory }

/-- `ZMemory.read_global(varnum)` (zmemory.py lines 235-241). -/
def ZMemory.read_global (m : ZMemory) (varnum : Nat) : Except ZErr Nat :=
  if ¬ (0x10 ≤ varnum ∧ varnum ≤ 0xFF) then .error .zMemoryOutOfBounds
  else
    m.read_word (m.global_variable_start + (varnum - 0x10) * 2)

/-- `ZMemory.write_global(varnum, value)` (zmemory.py lines 243-254).
The two bytes are produced by the BitField slices `bf[8:15]` and
`bf[0:7]` and stored into the raw memory list (no bounds or static
checks in the source; out-of-range raw stores would raise IndexError,
modelled here as an error). -/
def ZMemory.write_global (m : ZMemory) (varnum value : Nat) :
    Except ZErr ZMemory :=
  if ¬ (0x10 ≤ varnum ∧ varnum ≤ 0xFF) then .error .zMemoryOutOfBounds
  else if ¬ (value ≤ 0xFFFF) then .error .zMemoryIllegalWrite
  else
    let actual_address := m.global_variable_start + (varnum - 0x10) * 2
    if actual_address + 1 ≥ m.memory.length then .error .pyIndexError
    else
      let memory := (m.memory.set actual_address (bf_getslice value 8 15)).set
        (actual_address + 1) (bf_getslice value 0 7)
      .ok { m with memory := memory }

/-- `ZOpDecoder.get_branch_offset()` (zopdecoder.py lines 235-247).
Reads the word at the program counter into a BitField; bit 15 is bit 7
of the first byte (branch sense), bit 14 is bit 6 of the first byte
(form selector).  Returns `(new_program_counter, sense_bit, offset)`.
The two-byte form returns `bf[0:14]` with no sign extension. -/
def get_branch_offset (m : ZMemory) (program_counter : Nat) :
    Except ZErr (Nat × Nat × Nat) := do
  let w ← m.read_word program_counter
  if bf_getitem w 14 = 1 then
    .ok (program_counter + 1, bf_getitem w 15, bf_getslice w 8 14)
  else
    .ok (program_counter + 2, bf_getitem w 15, bf_getslice w 0 14)

/-- A stack frame, `ZRoutine` (zstackmanager.py lines 33-72).
`return_addr` is the result disposition carried by the frame (`None`
means discard); `stack` is the frame's private evaluation stack, top
element at the head of the list (Python appends/pops at the end). -/
structure ZRoutine where
  start_addr : Nat
  return_addr : Option Nat
  program_counter : Nat
  stack : List Nat
  local_vars : List Nat
  deriving Repr, DecidableEq, Inhabited

/-- `ZStackManager` (zstackmanager.py lines 90-96).  Python keeps the
list `self._call_stack = [self._stackbottom, routine1, ...]` with the
top frame at the end; here `call_stack` holds the routines above the
`ZStackBottom` sentinel with the top frame at the HEAD, and
`stackbottom_program_counter` is the sentinel's `program_counter`. -/
structure ZStackManager where
  stackbottom_program_counter : Nat
  call_stack : List ZRoutine
  deriving Repr, DecidableEq

/-- `ZStackManager.push_stack(value)` (zstackmanager.py lines 131-135).
With no routine on the call stack, Python would access `.stack` on the
`ZStackBottom` sentinel and raise AttributeError. -/
def ZStackManager.push_stack (zsm : ZStackManager) (value : Nat) :
    Except ZErr ZStackManager :=
  match zsm.call_stack with
  | [] => .error .pyAttributeError
  | r :: rest =>
    .ok { zsm with call_stack := { r with stack := value :: r.stack } :: rest }

/-- `ZStackManager.pop_stack()` (zstackmanager.py lines 138-142).
`list.pop()` on an empty evaluation stack raises IndexError. -/
def ZStackManager.pop_stack (zsm : ZStackManager) :
    Except ZErr (ZStackManager × Nat) :=
  match zsm.call_stack with
  | [] => .error .pyAttributeError
  | r :: rest =>
    match r.stack with
    | [] => .error .pyIndexError
    | v :: vs =>
      .ok ({ zsm with call_stack := { r with stack := vs } :: rest }, v)

/-- `ZStackManager.set_local_variable(varnum, value)` (zstackmanager.py
lines 115-128).  The guard `self._call_stack[1] == self._stackbottom`
compares element index 1: when at least one routine exists that element
is a routine (never the sentinel), and when none exists the index
access itself raises IndexError — so `ZStackNoRoutine` is unreachable
here.  Assigning `local_vars[varnum]` past the end of the list raises
IndexError. -/
def ZStackManager.set_local_variable (zsm : ZStackManager)
    (varnum value : Nat) : Except ZErr ZStackManager :=
  match zsm.call_stack with
  | [] => .error .pyIndexError
  | r :: rest =>
    if ¬ (varnum ≤ 15) then .error .zStackNoSuchVariable
    else if r.local_vars.length ≤ varnum then .error .pyIndexError
    else
      .ok { zsm with call_stack :=
              { r with local_vars := r.local_vars.set varnum value } :: rest }

/-- `ZStackManager.finish_routine(return_value)` (zstackmanager.py
lines 180-200).  Pops the exiting frame and resolves its
`return_addr` disposition: 0 pushes onto the caller frame's evaluation
stack, `0 < return_addr < 10` stores into caller local `return_addr`
(no offset), anything else goes to `ZMemory.write_global`.  Returns the
caller's saved program counter (the sentinel's if no caller remains). -/
def finish_routine (zsm : ZStackManager) (mem : ZMemory)
    (return_value : Nat) : Except ZErr (ZStackManager × ZMemory × Nat) :=
  match zsm.call_stack with
  | [] => .error .pyIndexError
  | exiting_routine :: rest =>
    let zsm := { zsm with call_stack := rest }
    let current_pc := match rest with
      | [] => zsm.stackbottom_program_counter
      | current_routine :: _ => current_routine.program_counter
    match exiting_routine.return_addr with
    | none => .ok (zsm, mem, current_pc)
    | some return_addr =>
      if return_addr = 0 then do
        let zsm ← zsm.push_stack return_value
        .ok (zsm, mem, current_pc)
      else if return_addr < 10 then do
        let zsm ← zsm.set_local_variable return_addr return_value
        .ok (zsm, mem, current_pc)
      else do
        let mem ← mem.write_global return_addr return_value
        .ok (zsm, mem, current_pc)

/-- `ZCpu._write_result(result_value, store_addr)` (zcpu.py lines
104-126) in the case where `store_addr` is given (not None), so
`result_addr = store_addr`; the None case only differs in fetching the
destination byte from the opcode stream.  Index 0 PUSHES onto the
evaluation stack; `0 < addr < 0x10` stores to local `addr - 1`; higher
indices go to the global variables. -/
def write_result (zsm : ZStackManager) (mem : ZMemory)
    (result_value result_addr : Nat) :
    Except ZErr (ZStackManager × ZMemory) :=
  if result_addr = 0 then do
    let zsm ← zsm.push_stack result_value
    .ok (zsm, mem)
  else if result_addr < 0x10 then do
    let zsm ← zsm.set_local_variable (result_addr - 1) result_value
    .ok (zsm, mem)
  else do
    let mem ← mem.write_global result_addr result_value
    .ok (zsm, mem)

/-- `ZCpu.op_store(variable, value)` (zcpu.py lines 242-244):
`self._write_result(value, store_addr=variable)`.  (The Python
parameter `variable` is a reserved word in Lean, hence `var`.) -/
def op_store (zsm : ZStackManager) (mem : ZMemory) (var value : Nat) :
    Except ZErr (ZStackManager × ZMemory) :=
  write_result zsm mem value var

/-- `QuetzalWriter._generate_cmem_chunk()` (quetzal.py lines 390-417).
The method executes `return "0"` (the one-byte placeholder string,
byte `0x30`) before the XOR/RLE code, which is unreachable and marked
"TODO: debug this when ready".  Arguments are the current and pristine
memory images the real encoder would consume. -/
def generate_cmem_chunk (_mem _pristine_mem : List Nat) : List Nat :=
  [0x30]

/-- The decompression loop of `QuetzalParser._parse_cmem` (quetzal.py
lines 135-149).  A non-zero byte XORs the pristine byte at
`memcounter`; a zero byte consumes a count byte `k` and skips `k + 1`
bytes (a zero byte with no following count byte raises IndexError).
After every step the code raises `QuetzalMemoryOutOfBounds` whenever
`memcounter >= memlen`. -/
def parse_cmem_go (pmem : List Nat) (memlen : Nat) :
    List Nat → Nat → List Nat → Except ZErr (List Nat)
  | savegame_mem, _, [] => .ok savegame_mem
  | savegame_mem, memcounter, byte :: rest =>
    if byte ≠ 0 then
      let savegame_mem := savegame_mem.set memcounter
        (byte ^^^ pmem.getD memcounter 0)
      if memcounter + 1 ≥ memlen then .error .quetzalMemoryOutOfBounds
      else parse_cmem_go pmem memlen savegame_mem (memcounter + 1) rest
    else
      match rest with
      | [] => .error .pyIndexError
      | num_extra_zeros :: rest =>
        if memcounter + (1 + num_extra_zeros) ≥ memlen then
          .error .quetzalMemoryOutOfBounds
        else
          parse_cmem_go pmem memlen savegame_mem
            (memcounter + (1 + num_extra_zeros)) rest

/-- `QuetzalParser._parse_cmem(data)` (quetzal.py lines 113-155).
`savegame_mem` starts as a copy of the pristine dynamic block
(`dynamic_start` is always 0, so `pmem[memcounter]` indexes that block
directly); the run-length-encoded XOR diff `data` is then applied and
the resulting dynamic memory image returned. -/
def parse_cmem (pmem_dynamic data : List Nat) : Except ZErr (List Nat) :=
  parse_cmem_go pmem_dynamic pmem_dynamic.length pmem_dynamic 0 data

/-- `ZCpu.op_je(a, b=None)` (zcpu.py lines 184-188), as invoked by the
dispatch loop `func(self, *operands)` (zcpu.py line 177).  Python call
arity: one operand leaves `b = None`, so `b is not None and a == b` is
False; two operands test `a == b`; zero or three-or-more operands raise
TypeError.  The returned Bool is the `test_result` handed to
`ZCpu._branch`. -/
def op_je : List Nat → Except ZErr Bool
  | [_] => .ok false
  | [a, b] => .ok (a == b)
  | _ => .error .pyTypeError

/-- `ZObjectParser.__init__` (zobjectparser.py lines 59-70): the object
tree starts 62 (v1-3) or 126 (v4-5) bytes after the property-defaults
table named by header word `0x0a`. -/
def objecttree_addr (m : ZMemory) : Except ZErr Nat := do
  let propdefaults ← m.read_word 0x0a
  if 1 ≤ m.version ∧ m.version ≤ 3 then .ok (propdefaults + 62)
  else if 4 ≤ m.version ∧ m.version ≤ 5 then .ok (propdefaults + 126)
  else .error .zObjectIllegalVersion

/-- `ZObjectParser._get_object_addr(objectnum)` (zobjectparser.py lines
73-90): 9-byte entries in v1-3, 14-byte entries in v4-5. -/
def get_object_addr (m : ZMemory) (objectnum : Nat) : Except ZErr Nat := do
  let tree ← objecttree_addr m
  if 1 ≤ m.version ∧ m.version ≤ 3 then
    if ¬ (1 ≤ objectnum ∧ objectnum ≤ 255) then
      .error .zObjectIllegalObjectNumber
    else .ok (tree + 9 * (objectnum - 1))
  else if 4 ≤ m.version ∧ m.version ≤ 5 then
    if ¬ (1 ≤ objectnum ∧ objectnum ≤ 65535) then
      .error .zObjectIllegalObjectNumber
    else .ok (tree + 14 * (objectnum - 1))
  else .error .zObjectIllegalVersion

/-- `ZObjectParser._get_parent_sibling_child(objectnum)`
(zobjectparser.py lines 93-113): v1-3 reads the three bytes at
`addr+4 : addr+7`; v4-5 reads three words starting at `addr+6`. -/
def get_parent_sibling_child (m : ZMemory) (objectnum : Nat) :
    Except ZErr (Nat × Nat × Nat) := do
  let addr ← get_object_addr m objectnum
  if 1 ≤ m.version ∧ m.version ≤ 3 then do
    let s ← m.getslice (addr + 4) (addr + 4 + 3)
    match s with
    | [p, sib, c] => .ok (p, sib, c)
    | _ => .error .pyIndexError
  else if 4 ≤ m.version ∧ m.version ≤ 5 then do
    let p ← m.read_word (addr + 6)
    let sib ← m.read_word (addr + 6 + 2)
    let c ← m.read_word (addr + 6 + 4)
    .ok (p, sib, c)
  else .error .zObjectIllegalVersion

/-- `ZObjectParser.get_parent` (zobjectparser.py lines 191-195). -/
def get_parent (m : ZMemory) (objectnum : Nat) : Except ZErr Nat := do
  let (p, _, _) ← get_parent_sibling_child m objectnum
  .ok p

/-- `ZObjectParser.get_child` (zobjectparser.py lines 198-202). -/
def get_child (m : ZMemory) (objectnum : Nat) : Except ZErr Nat := do
  let (_, _, c) ← get_parent_sibling_child m objectnum
  .ok c

/-- `ZObjectParser.get_sibling` (zobjectparser.py lines 205-209). -/
def get_sibling (m : ZMemory) (objectnum : Nat) : Except ZErr Nat := do
  let (_, sib, _) ← get_parent_sibling_child m objectnum
  .ok sib

/-- `ZObjectParser.set_parent` (zobjectparser.py lines 212-221). -/
def set_parent (m : ZMemory) (objectnum new_parent_num : Nat) :
    Except ZErr ZMemory := do
  let addr ← get_object_addr m objectnum
  if 1 ≤ m.version ∧ m.version ≤ 3 then m.setitem (addr + 4) new_parent_num
  else if 4 ≤ m.version ∧ m.version ≤ 5 then
    m.write_word (addr + 6) new_parent_num
  else .error .zObjectIllegalVersion

/-- `ZObjectParser.set_child` (zobjectparser.py lines 224-233). -/
def set_child (m : ZMemory) (objectnum new_child_num : Nat) :
    Except ZErr ZMemory := do
  let addr ← get_object_addr m objectnum
  if 1 ≤ m.version ∧ m.version ≤ 3 then m.setitem (addr + 6) new_child_num
  else if 4 ≤ m.version ∧ m.version ≤ 5 then
    m.write_word (addr + 10) new_child_num
  else .error .zObjectIllegalVersion

/-- `ZObjectParser.set_sibling` (zobjectparser.py lines 236-245). -/
def set_sibling (m : ZMemory) (objectnum new_sibling_num : Nat) :
    Except ZErr ZMemory := do
  let addr ← get_object_addr m objectnum
  if 1 ≤ m.version ∧ m.version ≤ 3 then m.setitem (addr + 5) new_sibling_num
  else if 4 ≤ m.version ∧ m.version ≤ 5 then
    m.write_word (addr + 8) new_sibling_num
  else .error .zObjectIllegalVersion

/-- The sibling-walk loop of `ZObjectParser.insert_object`
(zobjectparser.py lines 270-279):

    prev = item
    current = self.get_sibling(item)
    while current != 0:
      if current == new_child:
        self.set_sibling(prev, s)
        break
    else:
      raise ZObjectMalformedTree

The loop body never advances `prev` or `current`, so when
`current ∉ {0, new_child}` the Python loop spins forever; `fuel` bounds
the number of iterations and `none` means the fuel ran out with the
loop still running. -/
def unlink_walk (m : ZMemory) (prev current new_child s : Nat) :
    Nat → Option (Except ZErr ZMemory)
  | 0 => none
  | fuel + 1 =>
    if current ≠ 0 then
      if current = new_child then some (set_sibling m prev s)
      else unlink_walk m prev current new_child s fuel
    else some (.error .zObjectMalformedTree)

/-- `ZObjectParser.insert_object(parent_object, new_child)`
(zobjectparser.py lines 248-279).  Records the new child's old
(parent, sibling) pointers, splices it in as the head of
`parent_object`'s child list, then hunts for it in the old parent's
child list.  `none` means the sibling walk ran out of `fuel` (the
Python loop is still spinning). -/
def insert_object (m : ZMemory) (parent_object new_child fuel : Nat) :
    Option (Except ZErr ZMemory) :=
  let relink : Except ZErr (ZMemory × Nat × Nat) := do
    let (p, s, _) ← get_parent_sibling_child m new_child
    let original_child ← get_child m parent_object
    let m ← set_sibling m new_child original_child
    let m ← set_parent m new_child parent_object
    let m ← set_child m parent_object new_child
    .ok (m, p, s)
  match relink with
  | .error e => some (.error e)
  | .ok (m, p, s) =>
    if p = 0 then some (.ok m)
    else
      match get_child m p with
      | .error e => some (.error e)
      | .ok item =>
        if item = 0 then some (.error .zObjectMalformedTree)
        else if item = new_child then some (set_child m p s)
        else
          match get_sibling m item with
          | .error e => some (.error e)
          | .ok current => unlink_walk m item current new_child s fuel

/-- Whether Python `int(s)` accepts the byte string `s` (as evaluated
by the log statement at quetzal.py line 92): after stripping leading
and trailing ASCII whitespace and one optional sign character, at
least one character must remain and all of them must be decimal
digits; otherwise `int()` raises ValueError. -/
def py_int_ok (s : List Nat) : Bool :=
  let ws := [32, 9, 10, 13, 11, 12]
  let stripped :=
    ((s.dropWhile fun c => ws.contains c).reverse.dropWhile
      fun c => ws.contains c).reverse
  let digits := match stripped with
    | c :: rest => if c = 43 ∨ c = 45 then rest else stripped
    | [] => []
  !digits.isEmpty && digits.all fun c => decide (48 ≤ c ∧ c ≤ 57)

/-- `QuetzalParser._parse_ifhd(data)` (quetzal.py lines 72-110).
`seen` is `self._seen_mem_or_stks`, which `_parse_cmem`, `_parse_umem`
and `_parse_stks` all set to True (quetzal.py lines 118, 166, 193), so
it records whether any CMem/UMem/Stks chunk was already processed by
`load`.  Before any verification, the log call at line 92 evaluates
`int(chunk_serial)`, which raises ValueError whenever the 6-byte
serial is not a decimal string.  Then verifies release (header word
2), serial (header bytes `0x12:0x18`) and — only when the header
checksum word `0x1C` is non-zero — the checksum.  Returns the 3-byte
saved program counter installed into the opcode decoder. -/
def parse_ifhd (seen : Bool) (m : ZMemory) (data : List Nat) :
    Except ZErr Nat :=
  if seen then .error .quetzalIllegalChunkOrder
  else if data.length ≠ 13 then .error .quetzalMalformedChunk
  else
    let chunk_release := (data.getD 0 0) <<< 8 + data.getD 1 0
    let chunk_serial := (data.drop 2).take 6
    let chunk_checksum := (data.getD 8 0) <<< 8 + data.getD 9 0
    let chunk_pc := (data.getD 10 0) <<< 16 + (data.getD 11 0) <<< 8 +
      data.getD 12 0
    if py_int_ok chunk_serial then do
      let release ← m.read_word 2
      if release ≠ chunk_release then .error .quetzalMismatchedFile
      else do
        let header_serial ← m.getslice 0x12 0x18
        if chunk_serial ≠ header_serial then .error .quetzalMismatchedFile
        else do
          let mem_checksum ← m.read_word 0x1C
          if mem_checksum ≠ 0 ∧ mem_checksum ≠ chunk_checksum then
            .error .quetzalMismatchedFile
          else .ok chunk_pc
    else .error .pyValueError

/-- `ZStringTranslator.get(addr)` with `_read_char`/`_next_pos`
(zstring.py lines 23-58).  The Python loop appends one 5-bit character
per step, stepping `pos2` through 0, 1, 2 inside the current word
(`_read_char` reads `bf[(2-pos2)*5 : (2-pos2)*5+5]`) and, when the
intra-word counter overflows, either stops (`ZStringEndOfString`, word
bit 15 set) or moves to the word at `addr + 2`.  Grouped per word: each
word read contributes exactly its three characters before the
terminator test.  A missing terminator ends with the
`ZMemoryOutOfBounds` that `read_word` raises past the end of memory. -/
def zstring_get (m : ZMemory) (addr : Nat) : Except ZErr (List Nat) :=
  match h : m.read_word addr with
  | .error e => .error e
  | .ok w =>
    if bf_getitem w 15 = 1 then
      .ok [bf_getslice w 10 15, bf_getslice w 5 10, bf_getslice w 0 5]
    else
      match zstring_get m (addr + 2) with
      | .error e => .error e
      | .ok rest =>
        .ok (bf_getslice w 10 15 :: bf_getslice w 5 10 ::
             bf_getslice w 0 5 :: rest)
termination_by m.total_size - addr
decreasing_by
  have hlt : addr + 1 < m.total_size := by
    by_contra hc
    push_neg at hc
    simp only [ZMemory.read_word, ge_iff_le, if_pos hc] at h
    exact Except.noConfusion h
  omega

/-- The number of 16-bit words `ZStringTranslator.get` reads, up to and
including the terminator word (the word with bit 15 set). -/
def zstring_num_words (m : ZMemory) (addr : Nat) : Except ZErr Nat :=
  match h : m.read_word addr with
  | .error e => .error e
  | .ok w =>
    if bf_getitem w 15 = 1 then .ok 1
    else
      match zstring_num_words m (addr + 2) with
      | .error e => .error e
      | .ok n => .ok (n + 1)
termination_by m.total_size - addr
decreasing_by
  have hlt : addr + 1 < m.total_size := by
    by_contra hc
    push_neg at hc
    simp only [ZMemory.read_word, ge_iff_le, if_pos hc] at h
    exact Except.noConfusion h
  omega

/-- A 100-byte version-3 story image: version byte 3, high memory start
`0x0064` at `0x04`, global variables at `0x0042` (header word `0x0c`),
static memory start `0x0064` at `0x0e` (so all 100 bytes are dynamic). -/
def img100 : List Nat :=
  ((((List.replicate 100 0).set 0 3).set 0x05 0x64).set 0x0d 0x42).set 0x0f 0x64

/-- `img100` with the branch descriptor bytes `0x3F 0x38` at address
`0x40`: sense bit 0, first-byte bit 6 = 0 (two-byte form), and the
14-bit two's-complement encoding of the offset -200 (`0x3F38`). -/
def img_branch : List Nat := (img100.set 0x40 0x3F).set 0x41 0x38

/-- A 200-byte version-3 story image holding an object tree: property
defaults at `0x40` (header word `0x0a`), so the tree starts at
`0x40 + 62 = 126` with 9-byte entries; static memory starts at 200
(everything dynamic).  Object 1 has the child list 2 -> 3 -> 4
(`child(1)=2`, `sibling(2)=3`, `sibling(3)=4`, `sibling(4)=0`, objects
2, 3, 4 all have parent 1); object 5 is empty. -/
def img_objtree : List Nat :=
  ((((((((List.replicate 200 0).set 0 3).set 0x0b 0x40).set 0x0f 0xC8).set
    132 2).set 139 1).set 140 3).set 148 1).set 149 4 |>.set 157 1

end Zvm

namespace Zvm

/-- An exiting frame whose result disposition (`return_addr`) is the
variable index given, and a caller frame whose 15 locals are all 9 and
whose saved program counter is `0x180`. -/
def exiting_frame (d : Nat) : ZRoutine :=
  ⟨0x100, some d, 0, [], List.replicate 15 0⟩

/-- The caller frame below `exiting_frame`. -/
def caller_frame : ZRoutine := ⟨0x80, none, 0x180, [], List.replicate 15 9⟩

/-- C1: the claim is false on the code (code bug).  `finish_routine`
classifies dispositions with `0 < return_addr < 10`, so disposition 10
(a local variable per the universal variable-index semantics) is routed
to `ZMemory.write_global`, which rejects any `varnum < 16` with
`ZMemoryOutOfBounds` — the return faults instead of assigning caller
local 10.  Moreover disposition 1 stores into `local_vars[1]` (the
SECOND local), not local index 0 as the `addr - 1` convention of
`_read_variable`/`_write_result` requires: starting from caller locals
all 9, the first two caller locals afterwards are `[9, 0xAB]`. -/
theorem finish_routine_bad_dispositions :
    ((ZMemory.init img100).bind fun m =>
        finish_routine ⟨0, [exiting_frame 10, caller_frame]⟩ m 0xAB)
      = Except.error ZErr.zMemoryOutOfBounds ∧
    (((ZMemory.init img100).bind fun m =>
        finish_routine ⟨0, [exiting_frame 1, caller_frame]⟩ m 0xAB).map
          fun t => ((t.1.call_stack.headD default).local_vars.take 2,
                    t.2.2))
      = Except.ok ([9, 0xAB], 0x180) := by
  constructor <;> decide

/-- C2: the claim is false on the code (code bug).  `op_store` with
destination variable 0 goes through `_write_result`, which calls
`push_stack`: starting from an evaluation stack holding the single
value 5, storing 7 to variable 0 yields the stack `[7, 5]` (top first)
of depth 2 — a push, not an in-place replacement of the top. -/
theorem op_store_var0_pushes :
    (((ZMemory.init img100).bind fun m =>
        op_store ⟨0, [⟨0x100, none, 0, [5], List.replicate 15 0⟩]⟩ m 0 7).map
          fun p => (p.1.call_stack.headD default).stack)
      = Except.ok [7, 5] := by decide

/-- C3: the claim is false on the code (code bug).  `write_global`
stores the two bytes through the end-exclusive BitField slices
`bf[8:15]` and `bf[0:7]`, which drop bit 15 and bit 7 of the value.
Writing `0x80` to global 16 and reading it back yields `0`, not `0x80`,
on a concrete valid memory image. -/
theorem write_global_read_global_not_roundtrip :
    (do
      let m ← ZMemory.init img100
      let m2 ← m.write_global 16 0x80
      m2.read_global 16) = Except.ok 0 ∧
    (do
      let m ← ZMemory.init img100
      let m2 ← m.write_global 16 0x80
      m2.read_global 16) ≠ Except.ok 0x80 := by
  constructor <;> decide

/-- C5: the claim is false on the code (code bug).  A direct byte write
through `ZMemory.__setitem__` to header address 5 succeeds silently
(the method only checks bounds and the static region), rather than
raising a memory fault; reading the byte back confirms the header was
modified. -/
theorem setitem_header_byte_not_fatal :
    (do
      let m ← ZMemory.init img100
      let m2 ← m.setitem 5 77
      m2.getitem 5) = Except.ok 77 := by decide

/-- C4: the claim is false on the code (code bug).  Decoding the
two-byte branch descriptor `0x3F 0x38` — the 14-bit two's-complement
encoding of offset -200 with sense `false` — returns the raw unsigned
value 16184 (no sign extension), not -200.  The PC does advance by 2
and the sense bit is 0. -/
theorem get_branch_offset_unsigned_14bit :
    (do
      let m ← ZMemory.init img_branch
      get_branch_offset m 0x40) = Except.ok (0x42, 0, 16184) := by decide

/-- C6: the claim is false on the code (code bug).  The CMem encoder is
an unfinished stub: `_generate_cmem_chunk` returns the placeholder
string `"0"` (byte `0x30`) regardless of the memory state, so decoding
its output against the pristine dynamic memory `[1, 2, 3]` yields
`[0x30 XOR 1, 2, 3] = [49, 2, 3]`, not the snapshot `[9, 2, 3]` that
was "encoded". -/
theorem cmem_roundtrip_fails :
    parse_cmem [1, 2, 3] (generate_cmem_chunk [9, 2, 3] [1, 2, 3])
      = Except.ok [49, 2, 3] ∧
    ([49, 2, 3] : List Nat) ≠ [9, 2, 3] := by
  constructor <;> decide

set_option maxRecDepth 100000 in
/-- C7: the claim is false on the code (code bug).  The sibling walk in
`insert_object` never advances `prev`/`current`, so inserting an object
that sits THIRD in its old parent's child list spins forever: with the
tree of `img_objtree` (old parent 1 with children 2 -> 3 -> 4), moving
object 4 under object 5 leaves the walk at `current = 3` for every
amount of fuel — `insert_object` never terminates, let alone unlinks. -/
theorem insert_object_spins_forever :
    ∀ fuel, (ZMemory.init img_objtree).map
      (fun m => insert_object m 5 4 fuel) = Except.ok none := by
  intro fuel
  induction fuel with
  | zero => rfl
  | succ n ih =>
    rw [show (ZMemory.init img_objtree).map
          (fun m => insert_object m 5 4 (n + 1))
        = (ZMemory.init img_objtree).map
          (fun m => insert_object m 5 4 n) from rfl]
    exact ih

/-- C8: the claim is false on the code (code bug).  `op_je` is declared
`def op_je(self, a, b=None)`, so the dispatch call `func(self,
*operands)` raises TypeError as soon as three (or four) operands are
supplied — `je 5 3 5` crashes instead of branching on `5 = 5`.  The
two-operand case does branch on equality. -/
theorem op_je_three_operands_crash :
    op_je [5, 3, 5] = Except.error ZErr.pyTypeError ∧
    op_je [5, 5] = Except.ok true ∧
    op_je [5, 3] = Except.ok false := by
  refine ⟨by decide, by decide, by decide⟩

/-- Success characterization of `ZMemory.read_word`: it succeeds
exactly on in-range addresses and returns the big-endian word. -/
theorem read_word_ok_iff (m : ZMemory) (a w : Nat) :
    m.read_word a = Except.ok w ↔
      a + 1 < m.total_size ∧
      w = (m.memory.getD a 0) <<< 8 + m.memory.getD (a + 1) 0 := by
  constructor
  · intro h
    unfold ZMemory.read_word at h
    split at h
    · exact Except.noConfusion h
    · rename_i hb
      exact ⟨by omega, (Except.ok.inj h).symm⟩
  · rintro ⟨h1, h2⟩
    unfold ZMemory.read_word
    rw [if_neg (by omega), h2]

/-- Success characterization of `ZMemory.__getslice__`. -/
theorem getslice_ok_iff (m : ZMemory) (a b : Nat) (s : List Nat) :
    m.getslice a b = Except.ok s ↔
      a < m.total_size ∧ b < m.total_size ∧
      s = (m.memory.drop a).take (b - a) := by
  constructor
  · intro h
    unfold ZMemory.getslice ZMemory.check_bounds at h
    split at h
    · simp [bind, Except.bind] at h
    · rename_i ha
      split at h
      · simp [bind, Except.bind] at h
      · rename_i hb
        simp only [bind, Except.bind] at h
        exact ⟨by omega, by omega, (Except.ok.inj h).symm⟩
  · rintro ⟨ha, hb, hs⟩
    unfold ZMemory.getslice ZMemory.check_bounds
    rw [if_neg (by omega), if_neg (by omega)]
    simp only [bind, Except.bind]
    rw [hs]

/-- C9: confirmed.  `_parse_ifhd`, run (i) after a memory or stack
chunk, always raises the chunk-order error; (ii) it succeeds only when
the chunk is 13 bytes, its release word matches header word 2, its
6-byte serial matches header bytes `0x12:0x18`, and the header checksum
word `0x1C` is either zero or equal to the chunk checksum; (iii)
conversely, on a large-enough memory, a serial that `int()` accepts
(quetzal.py line 92 evaluates `int(chunk_serial)` before verifying —
a non-decimal serial raises ValueError instead), matching release and
serial and a ZERO header checksum word make it succeed whatever
checksum the chunk carries, returning the chunk's 3-byte program
counter. -/
theorem parse_ifhd_verification :
    (∀ (m : ZMemory) (data : List Nat),
      parse_ifhd true m data = Except.error ZErr.quetzalIllegalChunkOrder) ∧
    (∀ (m : ZMemory) (data : List Nat) (pc : Nat),
      parse_ifhd false m data = Except.ok pc →
        data.length = 13 ∧
        (data.getD 0 0) <<< 8 + data.getD 1 0
          = (m.memory.getD 2 0) <<< 8 + m.memory.getD 3 0 ∧
        (data.drop 2).take 6 = (m.memory.drop 0x12).take 6 ∧
        ((m.memory.getD 0x1C 0) <<< 8 + m.memory.getD 0x1D 0 = 0 ∨
         (m.memory.getD 0x1C 0) <<< 8 + m.memory.getD 0x1D 0
           = (data.getD 8 0) <<< 8 + data.getD 9 0)) ∧
    (∀ (m : ZMemory) (data : List Nat),
      0x1E ≤ m.total_size →
      data.length = 13 →
      py_int_ok ((data.drop 2).take 6) = true →
      (data.getD 0 0) <<< 8 + data.getD 1 0
        = (m.memory.getD 2 0) <<< 8 + m.memory.getD 3 0 →
      (data.drop 2).take 6 = (m.memory.drop 0x12).take 6 →
      (m.memory.getD 0x1C 0) <<< 8 + m.memory.getD 0x1D 0 = 0 →
      parse_ifhd false m data
        = Except.ok ((data.getD 10 0) <<< 16 + (data.getD 11 0) <<< 8 +
            data.getD 12 0)) := by
  refine ⟨?_, ?_, ?_⟩
  · intro m data
    simp [parse_ifhd]
  · intro m data pc h
    unfold parse_ifhd at h
    simp only [Bool.false_eq_true, if_false] at h
    by_cases hlen : data.length = 13
    · rw [if_neg (by simp [hlen])] at h
      by_cases hpi : py_int_ok ((data.drop 2).take 6) = true
      rotate_left
      · rw [if_neg hpi] at h
        exact absurd h (by simp)
      rw [if_pos hpi] at h
      rcases hrw : m.read_word 2 with e | release
      · rw [hrw] at h
        simp [bind, Except.bind] at h
      · rw [hrw] at h
        simp only [bind, Except.bind] at h
        by_cases hrel : release ≠ (data.getD 0 0) <<< 8 + data.getD 1 0
        · rw [if_pos hrel] at h
          exact absurd h (by simp)
        · rw [if_neg hrel] at h
          push_neg at hrel
          rcases hgs : m.getslice 0x12 0x18 with e | header_serial
          · rw [hgs] at h
            simp [bind, Except.bind] at h
          · rw [hgs] at h
            simp only [bind, Except.bind] at h
            by_cases hser : (data.drop 2).take 6 ≠ header_serial
            · rw [if_pos hser] at h
              exact absurd h (by simp)
            · rw [if_neg hser] at h
              push_neg at hser
              rcases hcs : m.read_word 0x1C with e | mem_checksum
              · rw [hcs] at h
                simp [bind, Except.bind] at h
              · rw [hcs] at h
                simp only [bind, Except.bind] at h
                by_cases hchk : mem_checksum ≠ 0 ∧
                    mem_checksum ≠ (data.getD 8 0) <<< 8 + data.getD 9 0
                · rw [if_pos hchk] at h
                  exact absurd h (by simp)
                · rw [if_neg hchk] at h
                  obtain ⟨-, hrel2⟩ := (read_word_ok_iff m 2 release).mp hrw
                  obtain ⟨-, -, hsl⟩ :=
                    (getslice_ok_iff m 0x12 0x18 header_serial).mp hgs
                  obtain ⟨-, hcs2⟩ :=
                    (read_word_ok_iff m 0x1C mem_checksum).mp hcs
                  refine ⟨hlen, by rw [← hrel, hrel2], ?_, ?_⟩
                  · rw [hser, hsl]
                  · rw [← hcs2]
                    rcases Decidable.em (mem_checksum = 0) with h0 | h0
                    · exact Or.inl h0
                    · right
                      by_contra hne
                      exact hchk ⟨h0, hne⟩
    · rw [if_pos hlen] at h
      exact absurd h (by simp)
  · intro m data hm hlen hpi hrel hser hchk
    have h2 : m.read_word 2
        = Except.ok ((m.memory.getD 2 0) <<< 8 + m.memory.getD 3 0) :=
      (read_word_ok_iff m 2 _).mpr ⟨by omega, rfl⟩
    have hs : m.getslice 0x12 0x18
        = Except.ok ((m.memory.drop 0x12).take 6) :=
      (getslice_ok_iff m 0x12 0x18 _).mpr ⟨by omega, by omega, by norm_num⟩
    have hc : m.read_word 0x1C
        = Except.ok ((m.memory.getD 0x1C 0) <<< 8 + m.memory.getD 0x1D 0) :=
      (read_word_ok_iff m 0x1C _).mpr ⟨by omega, rfl⟩
    unfold parse_ifhd
    simp only [Bool.false_eq_true, if_false]
    rw [if_neg (by simp [hlen])]
    rw [if_pos hpi]
    rw [h2]
    simp only [bind, Except.bind]
    rw [if_neg (by rw [← hrel]; simp)]
    rw [hs]
    simp only [bind, Except.bind]
    rw [if_neg (by rw [hser]; simp)]
    rw [hc]
    simp only [bind, Except.bind]
    rw [if_neg (by rw [hchk]; simp)]

/-- A 64-byte header-only memory for exercising `parse_ifhd`: release
word 5 at bytes 2-3, the decimal ASCII serial `"860425"` (bytes
`0x38 0x36 0x30 0x34 0x32 0x35`, which Python `int()` accepts) at
`0x12:0x18`, checksum word ZERO at `0x1C`.  The non-memory fields are
irrelevant to `parse_ifhd`. -/
def ifhd_mem : ZMemory :=
  ⟨((((((((List.replicate 64 0).set 3 5).set 0x12 0x38).set 0x13 0x36).set
      0x14 0x30).set 0x15 0x34).set 0x16 0x32).set 0x17 0x35),
   64, 64, 0, 63, 0, 64, 0, 3⟩

/-- A 13-byte IFhd payload matching `ifhd_mem`'s release and decimal
serial `"860425"` but carrying the (arbitrary) checksum `0xABCD` and
saved PC `0x010203`. -/
def ifhd_data : List Nat :=
  [0, 5, 0x38, 0x36, 0x30, 0x34, 0x32, 0x35, 0xAB, 0xCD, 1, 2, 3]

/-- Witness for `parse_ifhd_verification`: with a zero header checksum
word and a decimal serial, an IFhd chunk with matching release/serial
but arbitrary saved checksum `0xABCD` is accepted and yields the saved
PC `0x010203`. -/
theorem parse_ifhd_verification_witness :
    parse_ifhd false ifhd_mem ifhd_data = Except.ok 0x010203 :=
  parse_ifhd_verification.2.2 ifhd_mem ifhd_data (by decide) (by decide)
    (by decide) (by decide) (by decide) (by decide)

/-- Every 5-bit slice produced by `_read_char` is below 32. -/
theorem bf_getslice_width5_lt (w a b : Nat) (hb : b - a = 5) :
    bf_getslice w a b < 32 := by
  unfold bf_getslice
  rw [hb]
  exact Nat.mod_lt _ (by norm_num)

/-- Bounded-recursion helper for the Z-string unpacker: whenever
`zstring_get` succeeds, the character count is three per word read. -/
theorem zstring_get_aux :
    ∀ (k : Nat) (m : ZMemory) (addr : Nat) (s : List Nat),
      m.total_size - addr ≤ k →
      zstring_get m addr = Except.ok s →
      ∃ n, zstring_num_words m addr = Except.ok n ∧
        s.length = 3 * n ∧ ∀ c ∈ s, c < 32 := by
  intro k
  induction k with
  | zero =>
    intro m addr s hle h
    unfold zstring_get at h
    split at h
    · exact Except.noConfusion h
    · rename_i w hr
      obtain ⟨hlt, -⟩ := (read_word_ok_iff m addr w).mp hr
      omega
  | succ k ih =>
    intro m addr s hle h
    unfold zstring_get at h
    split at h
    · exact Except.noConfusion h
    · rename_i w hr
      obtain ⟨hlt, -⟩ := (read_word_ok_iff m addr w).mp hr
      split at h
      · rename_i hbit
        obtain rfl := Except.ok.inj h
        refine ⟨1, ?_, by simp, ?_⟩
        · unfold zstring_num_words
          split
          · rename_i heq
            rw [hr] at heq
            exact Except.noConfusion heq
          · rename_i w2 heq
            rw [hr] at heq
            obtain rfl := Except.ok.inj heq
            rw [if_pos hbit]
        · intro c hc
          simp only [List.mem_cons, List.not_mem_nil, or_false] at hc
          rcases hc with rfl | rfl | rfl
          · exact bf_getslice_width5_lt w 10 15 rfl
          · exact bf_getslice_width5_lt w 5 10 rfl
          · exact bf_getslice_width5_lt w 0 5 rfl
      · rename_i hbit
        split at h
        · exact Except.noConfusion h
        · rename_i rest hrec
          obtain rfl := Except.ok.inj h
          obtain ⟨n, hn, hlen, hmem⟩ :=
            ih m (addr + 2) rest (by omega) hrec
          refine ⟨n + 1, ?_, ?_, ?_⟩
          · unfold zstring_num_words
            split
            · rename_i heq
              rw [hr] at heq
              exact Except.noConfusion heq
            · rename_i w2 heq
              rw [hr] at heq
              obtain rfl := Except.ok.inj heq
              rw [if_neg hbit, hn]
          · simp only [List.length_cons, hlen]
            ring
          · intro c hc
            simp only [List.mem_cons] at hc
            rcases hc with rfl | rfl | rfl | hc
            · exact bf_getslice_width5_lt w 10 15 rfl
            · exact bf_getslice_width5_lt w 5 10 rfl
            · exact bf_getslice_width5_lt w 0 5 rfl
            · exact hmem c hc

/-- C10: confirmed.  Whenever the stage-A bit unpacker
`ZStringTranslator.get` returns a character list (a terminator word is
reachable, so the loop ends via `ZStringEndOfString`), the list is a
finite sequence of 5-bit codes (each below 32) and its length is
exactly three times the number of words read up to and including the
terminator word. -/
theorem zstring_get_length (m : ZMemory) (addr : Nat) (s : List Nat)
    (h : zstring_get m addr = Except.ok s) :
    ∃ n, zstring_num_words m addr = Except.ok n ∧
      s.length = 3 * n ∧ ∀ c ∈ s, c < 32 :=
  zstring_get_aux m.total_size m addr s (by omega) h

/-- A two-byte memory holding the single Z-string word `0x8000` (three
zero Z-characters, terminator bit set). -/
def zstr_mem : ZMemory := ⟨[0x80, 0x00], 2, 2, 0, 1, 0, 2, 0, 3⟩

/-- Witness for `zstring_get_length`: the one-word Z-string `0x8000`
unpacks to `[0, 0, 0]`, whose length is 3 times the 1 word read. -/
theorem zstring_get_length_witness :
    ∃ n, zstring_num_words zstr_mem 0 = Except.ok n ∧
      ([0, 0, 0] : List Nat).length = 3 * n ∧
      ∀ c ∈ ([0, 0, 0] : List Nat), c < 32 :=
  zstring_get_length zstr_mem 0 [0, 0, 0]
    (by unfold zstring_get
        simp [ZMemory.read_word, zstr_mem, ZMemory.total_size, bf_getitem,
              bf_getslice])

end Zvm
